import Mathlib

/-
Verification of the registered-programs report parser (program_codes.py).

The script reads a fixed-width report line by line, classifies each line by
its first token(s), accumulates per-program context in mutable module-level
variables, and at every accreditation line expands the context into
(Key, Record) pairs merged into a global dict with first-write-wins
semantics.

The embedding below models the script faithfully:
  - Python string operations (split, strip, slicing, title, replace,
    re.sub of runs of spaces, the FOR AWARD regex) are implemented as
    structurally recursive functions on lists of characters;
  - module-level variables that may be unbound at a given point (Python
    raises NameError when such a variable is read) are modelled as Option
    fields of the parser state; every read the source performs is an
    explicit match whose none case is a crash carrying the failed name;
  - print diagnostics are modelled as structured Diag values appended to
    the state (debug-only prints, guarded by args.debug which defaults to
    False, are omitted);
  - exit() is the fatal outcome; an uncaught Python exception (NameError,
    IndexError, AttributeError) is the crash outcome.  In either case the
    spreadsheet emitter at the bottom of the script never runs, so no
    output artifact is produced.

Input lines are modelled without their trailing newline character.  The
only extraction that does not strip its slice is the program-line
classification code, and no statement below depends on the content of
columns past the end of a line, so this convention is observationally
faithful.
-/

namespace ProgramCodes

/-- Python str.split() : splits on runs of whitespace, dropping empty pieces. -/
def pySplitAux : List Char → List Char → List String
  | [], cur => if cur.isEmpty then [] else [String.mk cur.reverse]
  | c :: rest, cur =>
    if c.isWhitespace then
      if cur.isEmpty then pySplitAux rest [] else String.mk cur.reverse :: pySplitAux rest []
    else pySplitAux rest (c :: cur)

/-- Python str.split() with no arguments. -/
def pySplit (s : String) : List String := pySplitAux s.toList []

/-- Python str.strip() : removes leading and trailing whitespace. -/
def pyStrip (s : String) : String :=
  String.mk (((s.toList.dropWhile Char.isWhitespace).reverse.dropWhile Char.isWhitespace).reverse)

/-- Python slicing s[a:b] on code points (clamped at the ends of the string). -/
def pySlice (s : String) (a b : Nat) : String :=
  String.mk ((s.toList.drop a).take (b - a))

/-- Python slicing s[a:] on code points. -/
def pySliceFrom (s : String) (a : Nat) : String :=
  String.mk (s.toList.drop a)

/-- Python str.isdecimal() for the ASCII data of this report. -/
def pyIsDecimal (s : String) : Bool :=
  !s.toList.isEmpty && s.toList.all Char.isDigit

/-- Python str.startswith(p). -/
def pyStartsWith (s p : String) : Bool :=
  decide (s.toList.take p.toList.length = p.toList)

/-- Python str.title() for the ASCII data of this report: a letter is
uppercased when the previous character is not a letter, lowercased
otherwise. -/
def pyTitleAux : Bool → List Char → List Char
  | _, [] => []
  | prevAlpha, c :: rest =>
    if c.isAlpha then (if prevAlpha then c.toLower else c.toUpper) :: pyTitleAux true rest
    else c :: pyTitleAux false rest

/-- Python str.title(). -/
def pyTitle (s : String) : String := String.mk (pyTitleAux false s.toList)

/-- Python str.replace(pat, rep) for a nonempty pattern: replaces every
non-overlapping occurrence, scanning left to right.  The Nat argument is
the number of still-to-skip characters of a match already emitted. -/
def pyReplaceAux (pat rep : List Char) : List Char → Nat → List Char
  | [], _ => []
  | _ :: rest, k + 1 => pyReplaceAux pat rep rest k
  | c :: rest, 0 =>
    if (c :: rest).take pat.length = pat then
      rep ++ pyReplaceAux pat rep rest (pat.length - 1)
    else c :: pyReplaceAux pat rep rest 0

/-- Python str.replace(pat, rep); every use in the source has a nonempty
pattern. -/
def pyReplace (s pat rep : String) : String :=
  String.mk (pyReplaceAux pat.toList rep.toList s.toList 0)

/-- Python re.sub of two-or-more spaces by one space: every maximal run of
spaces collapses to a single space (a lone space is left as is, which is
the same thing). -/
def collapseSpacesAux : Bool → List Char → List Char
  | _, [] => []
  | prevSpace, c :: rest =>
    if c = ' ' then
      if prevSpace then collapseSpacesAux true rest else ' ' :: collapseSpacesAux true rest
    else c :: collapseSpacesAux false rest

/-- re.sub of runs of spaces, as applied to program names at key expansion. -/
def collapseSpaces (s : String) : String := String.mk (collapseSpacesAux false s.toList)

/-- The pattern of the possessive repair in fix_title, built without an
ASCII apostrophe literal. -/
def apostropheS : String := String.mk [Char.ofNat 39, 'S']

/-- fix_title from the source: strip, titlecase, then repair known
titlecasing artifacts of this dataset. -/
def fix_title (str : String) : String :=
  pyReplace
    (pyReplace
      (pyReplace
        (pyReplace
          (pyReplace (pyTitle (pyStrip str)) ("Mhc") ("MHC"))
          apostropheS ("’s"))
        ("1St") ("1st"))
      ("6Th") ("6th"))
    (" And ") (" and ")

/-- re.match of the for_award pattern: optional leading whitespace, the
literal FOR AWARD, optional whitespace, two dashes, then the captured
rest of the line.  Returns the capture group, or none when the line does
not match (where the source would raise AttributeError on .group). -/
def matchForAward (line : String) : Option String :=
  let cs := line.toList.dropWhile Char.isWhitespace
  if cs.take 9 = ("FOR AWARD").toList then
    let cs2 := (cs.drop 9).dropWhile Char.isWhitespace
    if cs2.take 2 = ("--").toList then some (String.mk (cs2.drop 2)) else none
  else none

/-- Input line types, determined from the first token on the line. -/
inductive LineType
  | program
  | multiple_awards
  | multiple_institutions
  | for_award
  | certificate_etc
  | financial_aid
  | accreditation
deriving DecidableEq, Repr

/-- Key namedtuple: program_code, program_name, hegis_code, award,
institution.  The hegis_code slot is Option String because the M/I branch
can place Python None there. -/
structure Key where
  program_code : String
  program_name : String
  hegis_code : Option String
  award : String
  institution : String
deriving DecidableEq, Repr

/-- Record namedtuple: certificate triple, the three financial-aid
booleans, and the accreditation text. -/
structure Record where
  cert_name : Option String
  cert_type : Option String
  cert_date : Option String
  tap_eligible : Bool
  apts_eligible : Bool
  vvta_eligible : Bool
  accreditation : String
deriving DecidableEq, Repr

/-- MAW_line namedtuple: name, hegis, award, institution of one M/A line. -/
structure MAW_line where
  name : String
  hegis : String
  award : String
  institution : String
deriving DecidableEq, Repr

/-- Certs_etc namedtuple with all-None defaults. -/
structure Certs_etc where
  name : Option String := none
  type : Option String := none
  date : Option String := none
deriving DecidableEq, Repr

/-- Financial_aid namedtuple with all-False defaults. -/
structure Financial_aid where
  tap : Bool := false
  apts : Bool := false
  vvta : Bool := false
deriving DecidableEq, Repr

/-- Structured diagnostics standing for the print calls of the source
(the debug-only prints are omitted: args.debug defaults to False). -/
inductive Diag
  | unexpectedProgram (n : Nat)
  | unexpectedMA (n : Nat)
  | duplicateMaw (n : Nat) (m : MAW_line) (pc : String)
  | unexpectedMI (n : Nat)
  | secondMI (n : Nat) (pc : String)
  | unexpectedForAward (n : Nat)
  | unexpectedCert (n : Nat)
  | unexpectedFinAid (n : Nat)
  | unexpectedAccreditation (n : Nat)
  | dupMawKeyConflict (k : Key) (old new : Record)
  | dupMIKeyConflict (k : Key) (old new : Record)
  | dupProgramKeyConflict (k : Key) (old new : Record)
  | unrecognized (n : Nat) (line : String)
deriving DecidableEq, Repr

/-- Parser state: the global dict of records (an insertion-ordered
association list), the module-level scalars, and every per-program
variable of the script.  A module-level variable that may be read before
it was ever assigned (raising NameError in Python) is an Option that
starts out none. -/
structure PState where
  records : List (Key × Record)
  diags : List Diag
  program_codes : List String
  this_type : LineType
  line_num : Nat
  num_dupes : Nat
  program_code : Option String
  program_name : Option String
  program_hegis : Option String
  program_award : Option String
  program_institution : Option String
  maw_lines : Option (List MAW_line)
  maw_awards : Option (List String)
  minst_line : Option Bool
  minst_hegis : Option (Option String)
  minst_award : Option (Option String)
  minst_institution : Option String
  cert : Option Certs_etc
  fin_aid : Option Financial_aid
  for_award : Option String
  accreditation : Option String
deriving DecidableEq, Repr

/-- The state before the first line: this_type starts as accreditation so
that the first program line is not flagged, and every per-program
variable is unbound. -/
def initState : PState :=
  { records := [], diags := [], program_codes := [], this_type := LineType.accreditation,
    line_num := 0, num_dupes := 0,
    program_code := none, program_name := none, program_hegis := none,
    program_award := none, program_institution := none,
    maw_lines := none, maw_awards := none,
    minst_line := none, minst_hegis := none, minst_award := none,
    minst_institution := none, cert := none, fin_aid := none,
    for_award := none, accreditation := none }

/-- Python set.add on the insertion-ordered list model of a set. -/
def setAdd {α : Type} [DecidableEq α] (l : List α) (x : α) : List α :=
  if x ∈ l then l else l ++ [x]

/-- Lookup in the insertion-ordered association list standing for the
records dict. -/
def recLookup : List (Key × Record) → Key → Option Record
  | [], _ => none
  | (k0, r0) :: rest, k => if k0 = k then some r0 else recLookup rest k

/-- Outcome of processing one line: continue, exit() after the printed
diagnostics (fatal), or an uncaught exception naming the failure. -/
inductive StepOut
  | ok (s : PState)
  | fatal (s : PState)
  | crash (s : PState) (err : String)
deriving DecidableEq, Repr

/-- Append a diagnostic when the transition check fails. -/
def addDiagIf (c : Prop) [Decidable c] (d : Diag) (s : PState) : PState :=
  if c then { s with diags := s.diags ++ [d] } else s

/-- Merge one key with the current data record into (records, diags):
insert when absent, keep the first-written record and report a conflict
when present with a different record, do nothing when present with the
same record (the benign duplicate print is debug-only). -/
def mergeKR (mkd : Key → Record → Record → Diag) (dr : Record)
    (rd : List (Key × Record) × List Diag) (k : Key) :
    List (Key × Record) × List Diag :=
  match recLookup rd.1 k with
  | some old => if old ≠ dr then (rd.1, rd.2 ++ [mkd k old dr]) else rd
  | none => (rd.1 ++ [(k, dr)], rd.2)

/-- The records-only effect of one merge. -/
def mergeRecOnly (dr : Record) (l : List (Key × Record)) (k : Key) : List (Key × Record) :=
  match recLookup l k with
  | some _ => l
  | none => l ++ [(k, dr)]

/-- The records-only effect of merging a list of keys in order. -/
def mergeRecsAll (dr : Record) (l : List (Key × Record)) (ks : List Key) : List (Key × Record) :=
  ks.foldl (mergeRecOnly dr) l

/-- The data record assembled at an accreditation line. -/
def dataRecordOf (cert : Certs_etc) (f : Financial_aid) (acc : String) : Record :=
  ⟨cert.name, cert.type, cert.date, f.tap, f.apts, f.vvta, acc⟩

/-- Key built from one M/A entry at key expansion. -/
def mawKey (pc : String) (m : MAW_line) : Key :=
  ⟨pc, m.name, some m.hegis, m.award, m.institution⟩

/-- The M/A entries of the current program whose award is the active
for-award value. -/
def mawMatches (mls : List MAW_line) (A : String) : List MAW_line :=
  mls.filter fun m => decide (m.award = A)

/-- The keys the M/A expansion branch emits. -/
def mawKeysOf (pc : String) (mls : List MAW_line) (mas : List String) (A : String) : List Key :=
  if A ∈ mas then (mawMatches mls A).map (mawKey pc) else []

/-- Key built by the M/I expansion branch. -/
def miKeyOf (pc pn : String) (mh : Option String) (A mi : String) : Key :=
  ⟨pc, collapseSpaces pn, mh, A, mi⟩

/-- The keys the M/I expansion branch emits (one or none). -/
def miKeysOf (ml : Bool) (ma : Option String) (pc pn : String) (mh : Option String)
    (mi : String) (A : String) : List Key :=
  if ml = true ∧ ma = some A then [miKeyOf pc pn mh A mi] else []

/-- Key built by the base-program expansion branch. -/
def baseKeyOf (pc pn ph pa pi : String) : Key :=
  ⟨pc, collapseSpaces pn, some ph, pa, pi⟩

/-- The keys the base-program expansion branch emits (one or none). -/
def baseKeysOf (pa A pc pn ph pi : String) : List Key :=
  if pa = A then [baseKeyOf pc pn ph pa pi] else []

/-- The hegis extraction of an M/I line: stripped, and an entirely blank
field becomes Python None. -/
def miHegis (line : String) : Option String :=
  let h := pyStrip (pySlice line 52 59)
  if h = "" then none else some h

/-- The award extraction of an M/I line: stripped, and the NOT-GRANTING
sentinel becomes Python None. -/
def miAward (line : String) : Option String :=
  let a := pyStrip (pySlice line 63 76)
  if a = "NOT-GRANTING" then none else some a

/-- Python truthiness of the optional award: None and the empty string
are falsy. -/
def pyTruthy : Option String → Bool
  | none => false
  | some a => decide (a ≠ "")

/-- The MAW_line tuple extracted from an M/A line. -/
def mawOf (line : String) : MAW_line :=
  { name := pyStrip (fix_title (pySlice line 10 52)),
    hegis := pyStrip (pySlice line 52 59),
    award := pyStrip (pySlice line 63 76),
    institution := pyReplace (pyTitle (pyStrip (pySliceFrom line 76))) ("Cuny") ("CUNY") }

/-- The state after a program line.  Note what the source resets here and
what it does not: maw_lines, maw_awards, minst_line and cert are freshly
initialized; fin_aid, for_award, minst_hegis, minst_award and
minst_institution keep whatever value (or unboundness) they had. -/
def stepProgramS (s : PState) (prev : LineType) (line : String) (token : String) : PState :=
  let s := { s with this_type := LineType.program }
  let s := addDiagIf (prev ≠ LineType.accreditation) (Diag.unexpectedProgram s.line_num) s
  let program_code := token
  let program_name := fix_title (pySlice line 10 52)
  let program_hegis := pySlice line 52 59
  let program_award := pyStrip (pySlice line 63 76)
  let program_institution := pyReplace (pyTitle (pyStrip (pySliceFrom line 76))) ("Cuny") ("CUNY")
  let num_dupes := if program_code ∈ s.program_codes then s.num_dupes + 1 else s.num_dupes
  let program_codes := setAdd s.program_codes token
  { s with
    program_code := some program_code, program_name := some program_name,
    program_hegis := some program_hegis, program_award := some program_award,
    program_institution := some program_institution,
    num_dupes := num_dupes, program_codes := program_codes,
    maw_lines := some [], maw_awards := some [], minst_line := some false,
    cert := some ⟨none, none, none⟩ }

/-- The program branch never exits or raises. -/
def stepProgram (s : PState) (prev : LineType) (line : String) (token : String) : StepOut :=
  StepOut.ok (stepProgramS s prev line token)

/-- Tail of the M/A branch: add to maw_lines, then to maw_awards (the
latter read can raise NameError on its own, after maw_lines was already
updated). -/
def stepMAfinish (s : PState) (mls : List MAW_line) (m : MAW_line) : StepOut :=
  let mls2 := setAdd mls m
  match s.maw_awards with
  | none => StepOut.crash { s with maw_lines := some mls2 } ("NameError: maw_awards")
  | some mas => StepOut.ok { s with maw_lines := some mls2, maw_awards := some (setAdd mas m.award) }

/-- The M/A branch. -/
def stepMA (s : PState) (prev : LineType) (line : String) : StepOut :=
  let s := { s with this_type := LineType.multiple_awards }
  let s := addDiagIf (prev ≠ LineType.program ∧ prev ≠ LineType.multiple_institutions)
    (Diag.unexpectedMA s.line_num) s
  let m := mawOf line
  match s.maw_lines with
  | none => StepOut.crash s ("NameError: maw_lines")
  | some mls =>
    if m ∈ mls then
      match s.program_code with
      | none => StepOut.crash s ("NameError: program_code")
      | some pc => stepMAfinish { s with diags := s.diags ++ [Diag.duplicateMaw s.line_num m pc] } mls m
    else stepMAfinish s mls m

/-- The M/I branch: minst_hegis and minst_award are assigned on every M/I
line; only an award-bearing line touches minst_institution and
minst_line, and a second award-bearing line for the same program is
fatal. -/
def stepMI (s : PState) (prev : LineType) (line : String) : StepOut :=
  let s := { s with this_type := LineType.multiple_institutions }
  let s := addDiagIf (prev ≠ LineType.program ∧ prev ≠ LineType.multiple_awards)
    (Diag.unexpectedMI s.line_num) s
  let s := { s with minst_hegis := some (miHegis line), minst_award := some (miAward line) }
  if pyTruthy (miAward line) then
    match s.minst_line with
    | none => StepOut.crash s ("NameError: minst_line")
    | some ml =>
      if ml then
        match s.program_code with
        | none => StepOut.crash s ("NameError: program_code")
        | some pc => StepOut.fatal { s with diags := s.diags ++ [Diag.secondMI s.line_num pc] }
      else
        StepOut.ok { s with
          minst_institution := some (pyReplace (pyTitle (pyStrip (pySliceFrom line 76))) ("Cuny") ("CUNY")),
          minst_line := some true }
  else StepOut.ok s

/-- The for_award branch.  The membership check on failure tries to print
a diagnostic whose arguments include the name awards, which is assigned
nowhere in the script, so argument evaluation raises NameError before
anything is printed; the exit() on the next source line is never
reached. -/
def stepFOR (s : PState) (prev : LineType) (line : String) : StepOut :=
  let s := { s with this_type := LineType.for_award }
  let s := addDiagIf (prev ≠ LineType.program ∧ prev ≠ LineType.multiple_awards ∧
      prev ≠ LineType.multiple_institutions ∧ prev ≠ LineType.accreditation)
    (Diag.unexpectedForAward s.line_num) s
  match matchForAward line with
  | none => StepOut.crash s ("AttributeError: NoneType has no attribute group")
  | some g =>
    let fa := pyStrip g
    let s := { s with for_award := some fa }
    match s.program_award with
    | none => StepOut.crash s ("NameError: program_award")
    | some pa =>
      if fa ≠ pa then
        match s.maw_awards with
        | none => StepOut.crash s ("NameError: maw_awards")
        | some mas =>
          if fa ∉ mas then StepOut.crash s ("NameError: awards")
          else StepOut.ok s
      else StepOut.ok s

/-- The state after a certificate_etc line. -/
def stepCERTS (s : PState) (prev : LineType) (line : String) : PState :=
  let s := { s with this_type := LineType.certificate_etc }
  let s := addDiagIf (prev ≠ LineType.for_award) (Diag.unexpectedCert s.line_num) s
  let cert_info := pyStrip (pySliceFrom line 47)
  let cert : Certs_etc :=
    if pyStartsWith cert_info ("NONE") then ⟨none, none, none⟩
    else ⟨some (pyStrip (pySlice cert_info 0 18)), some (pyStrip (pySlice cert_info 18 28)),
          some (pyStrip (pySliceFrom cert_info 28))⟩
  { s with cert := some cert }

/-- The certificate_etc branch never exits or raises. -/
def stepCERT (s : PState) (prev : LineType) (line : String) : StepOut :=
  StepOut.ok (stepCERTS s prev line)

/-- The state after a financial_aid line: each boolean is true exactly
when the fixed column range holds the literal YES. -/
def stepFinAidS (s : PState) (prev : LineType) (line : String) : PState :=
  let s := { s with this_type := LineType.financial_aid }
  let s := addDiagIf (prev ≠ LineType.certificate_etc ∧ prev ≠ LineType.for_award)
    (Diag.unexpectedFinAid s.line_num) s
  let fa : Financial_aid :=
    ⟨decide (pySlice line 54 57 = "YES"),
     decide (pySlice line 66 69 = "YES"),
     decide (pySlice line 77 80 = "YES")⟩
  { s with fin_aid := some fa }

/-- The financial_aid branch never exits or raises. -/
def stepFinAid (s : PState) (prev : LineType) (line : String) : StepOut :=
  StepOut.ok (stepFinAidS s prev line)

/-- The M/A block of key expansion, threading (records, diags).  Reads of
possibly-unbound names happen in the order the source performs them:
maw_lines before the loop, program_code inside the first loop iteration
that builds a key. -/
def accredMawRD (s : PState) (fa : String) (dr : Record) (mas : List String)
    (rd : List (Key × Record) × List Diag) :
    (List (Key × Record) × List Diag) ⊕ String :=
  if fa ∈ mas then
    match s.maw_lines with
    | none => Sum.inr ("NameError: maw_lines")
    | some mls =>
      if mawMatches mls fa = [] then Sum.inl rd
      else
        match s.program_code with
        | none => Sum.inr ("NameError: program_code")
        | some pc =>
          Sum.inl ((mawMatches mls fa).foldl
            (fun r m => mergeKR Diag.dupMawKeyConflict dr r (mawKey pc m)) rd)
  else Sum.inl rd

/-- The M/I block of key expansion.  The and in the source short-circuits,
so minst_award is only read when minst_line is truthy; a None award never
equals the for-award string, so a sentinel override emits nothing. -/
def accredMIRD (s : PState) (fa : String) (dr : Record)
    (rd : List (Key × Record) × List Diag) :
    (List (Key × Record) × List Diag) ⊕ String :=
  match s.minst_line with
  | none => Sum.inr ("NameError: minst_line")
  | some ml =>
    if ml then
      match s.minst_award with
      | none => Sum.inr ("NameError: minst_award")
      | some ma =>
        if ma = some fa then
          match s.program_code with
          | none => Sum.inr ("NameError: program_code")
          | some pc =>
            match s.program_name with
            | none => Sum.inr ("NameError: program_name")
            | some pn =>
              match s.minst_hegis with
              | none => Sum.inr ("NameError: minst_hegis")
              | some mh =>
                match s.minst_institution with
                | none => Sum.inr ("NameError: minst_institution")
                | some mi =>
                  Sum.inl (mergeKR Diag.dupMIKeyConflict dr rd (miKeyOf pc pn mh fa mi))
        else Sum.inl rd
    else Sum.inl rd

/-- The base-program block of key expansion. -/
def accredBaseRD (s : PState) (fa : String) (dr : Record)
    (rd : List (Key × Record) × List Diag) :
    (List (Key × Record) × List Diag) ⊕ String :=
  match s.program_award with
  | none => Sum.inr ("NameError: program_award")
  | some pa =>
    if pa = fa then
      match s.program_code with
      | none => Sum.inr ("NameError: program_code")
      | some pc =>
        match s.program_name with
        | none => Sum.inr ("NameError: program_name")
        | some pn =>
          match s.program_hegis with
          | none => Sum.inr ("NameError: program_hegis")
          | some ph =>
            match s.program_institution with
            | none => Sum.inr ("NameError: program_institution")
            | some pi =>
              Sum.inl (mergeKR Diag.dupProgramKeyConflict dr rd (baseKeyOf pc pn ph pa pi))
    else Sum.inl rd

/-- The accreditation branch: extract the text, build the data record
(reading cert then fin_aid), then run the three expansion blocks in
order.  The three blocks are three independent if statements in the
source, not an if/elif chain. -/
def stepAccred (s : PState) (prev : LineType) (line : String) : StepOut :=
  let s := { s with this_type := LineType.accreditation }
  let s := addDiagIf (prev ≠ LineType.financial_aid) (Diag.unexpectedAccreditation s.line_num) s
  let acc := pyStrip (pySliceFrom line 45)
  let s := { s with accreditation := some acc }
  match s.cert with
  | none => StepOut.crash s ("NameError: cert")
  | some cert =>
    match s.fin_aid with
    | none => StepOut.crash s ("NameError: fin_aid")
    | some fin_aid =>
      let dr := dataRecordOf cert fin_aid acc
      match s.for_award with
      | none => StepOut.crash s ("NameError: for_award")
      | some fa =>
        match s.maw_awards with
        | none => StepOut.crash s ("NameError: maw_awards")
        | some mas =>
          match accredMawRD s fa dr mas (s.records, s.diags) with
          | Sum.inr e => StepOut.crash s e
          | Sum.inl rd1 =>
            match accredMIRD s fa dr rd1 with
            | Sum.inr e => StepOut.crash { s with records := rd1.1, diags := rd1.2 } e
            | Sum.inl rd2 =>
              match accredBaseRD s fa dr rd2 with
              | Sum.inr e => StepOut.crash { s with records := rd2.1, diags := rd2.2 } e
              | Sum.inl rd3 => StepOut.ok { s with records := rd3.1, diags := rd3.2 }

/-- Process one line: bump line_num, remember the previous line type,
tokenize (an empty token list makes tokens[0] raise IndexError), then
dispatch on the first token in the order of the source's elif chain.  A
first token PROGRAM forces a read of tokens[1], which raises IndexError
when the line has only one token.  A line matching no pattern is
reported and changes nothing but the diagnostics. -/
def step (s0 : PState) (line : String) : StepOut :=
  let s := { s0 with line_num := s0.line_num + 1 }
  let prev := s0.this_type
  match pySplit line with
  | [] => StepOut.crash s ("IndexError: tokens")
  | token :: rest =>
    if pyIsDecimal token then stepProgram s prev line token
    else if token = "M/A" then stepMA s prev line
    else if token = "M/I" then stepMI s prev line
    else if token = "FOR" then stepFOR s prev line
    else if pyStartsWith token ("CERT") then stepCERT s prev line
    else if token = "PROGRAM" then
      match rest with
      | [] => StepOut.crash s ("IndexError: tokens")
      | t1 :: _ =>
        if t1 = "FINANCIAL" then stepFinAid s prev line
        else if t1 = "PROFESSIONAL" then stepAccred s prev line
        else StepOut.ok { s with diags := s.diags ++ [Diag.unrecognized s.line_num line] }
    else StepOut.ok { s with diags := s.diags ++ [Diag.unrecognized s.line_num line] }

/-- Outcome of a whole run: normal completion hands the final state to
the spreadsheet emitter; exit() or an uncaught exception terminates the
run with no output artifact. -/
inductive RunOutcome
  | finished (s : PState)
  | fatalExit (s : PState)
  | crashed (s : PState) (err : String)
deriving DecidableEq, Repr

/-- Run the loop over the remaining lines. -/
def runLines : PState → List String → RunOutcome
  | s, [] => RunOutcome.finished s
  | s, l :: rest =>
    match step s l with
    | StepOut.ok s1 => runLines s1 rest
    | StepOut.fatal s1 => RunOutcome.fatalExit s1
    | StepOut.crash s1 e => RunOutcome.crashed s1 e

/-- Run the script on a list of input lines. -/
def runProgram (lines : List String) : RunOutcome := runLines initState lines

/-- The (Key, Record) pairs handed to the spreadsheet emitter: only a
normally finished run produces any. -/
def emittedRecords : RunOutcome → Option (List (Key × Record))
  | RunOutcome.finished s => some s.records
  | _ => none

/-- The error of a run that died with an uncaught exception. -/
def crashErr : RunOutcome → Option String
  | RunOutcome.crashed _ e => some e
  | _ => none

/-- The diagnostics printed before an uncaught exception. -/
def crashDiags : RunOutcome → Option (List Diag)
  | RunOutcome.crashed s _ => some s.diags
  | _ => none

/-- Lookup of one key in the records of a normally finished run. -/
def finalLookup (r : RunOutcome) (k : Key) : Option Record :=
  match r with
  | RunOutcome.finished s => recLookup s.records k
  | _ => none

/-- The program_hegis variable at the end of a normally finished run. -/
def finalProgramHegis : RunOutcome → Option (Option String)
  | RunOutcome.finished s => some s.program_hegis
  | _ => none

/-- Pad a string with spaces to a fixed column width (test-line builder). -/
def padTo (s : String) (n : Nat) : String :=
  s ++ String.mk (List.replicate (n - s.toList.length) ' ')

/-- A program line: code in the leading columns, name at 10..52, hegis at
52..59, award at 63..76, institution from 76. -/
def progLine (code nm hegis award inst : String) : String :=
  padTo code 10 ++ padTo nm 42 ++ padTo hegis 7 ++ "    " ++ padTo award 13 ++ inst

/-- An M/A line with the same field layout as a program line. -/
def mawLineStr (nm hegis award inst : String) : String :=
  padTo ("M/A") 10 ++ padTo nm 42 ++ padTo hegis 7 ++ "    " ++ padTo award 13 ++ inst

/-- An M/I line: hegis at 52..59, award at 63..76, institution from 76. -/
def miLineStr (hegis award inst : String) : String :=
  padTo ("M/I") 52 ++ padTo hegis 7 ++ "    " ++ padTo award 13 ++ inst

/-- A for_award line. -/
def forLineStr (award : String) : String := "FOR AWARD   --" ++ award

/-- A certificate_etc line declaring no certificate. -/
def certNoneLineStr : String := padTo ("CERTIFICATES") 47 ++ "NONE"

/-- A financial_aid line with the three eligibility fields at 54..57,
66..69 and 77..80. -/
def finLineStr (tap apts vvta : String) : String :=
  padTo ("PROGRAM FINANCIAL AID") 54 ++ padTo tap 12 ++ padTo apts 11 ++ vvta

/-- An accreditation line with its text from column 45. -/
def accLineStr (txt : String) : String :=
  padTo ("PROGRAM PROFESSIONAL ACCREDITATION") 45 ++ txt

/-- A sample M/A entry for concrete checks. -/
def mawA : MAW_line := ⟨"Cscia", "0702", "MS", "York"⟩

/-- A second sample M/A entry with the same award. -/
def mawB : MAW_line := ⟨"Cscib", "0703", "MS", "Bronx"⟩

/-- A concrete state in which every per-program variable is bound, as it
is after a well-formed program / M-A / for_award / certificate /
financial_aid prefix. -/
def boundState : PState :=
  { records := [], diags := [], program_codes := [("00001")],
    this_type := LineType.financial_aid, line_num := 6, num_dupes := 0,
    program_code := some ("00001"), program_name := some ("Csci"),
    program_hegis := some ("0701   "), program_award := some ("BA"),
    program_institution := some ("Queens"),
    maw_lines := some [mawA, mawB], maw_awards := some [("MS")],
    minst_line := some false, minst_hegis := some none, minst_award := some none,
    minst_institution := some (""), cert := some ⟨none, none, none⟩,
    fin_aid := some ⟨true, false, false⟩, for_award := some ("MS"), accreditation := none }

/-- Concrete run for claim C2: a for_award value matching neither the
base award nor any multi-award entry. -/
def C2lines : List String :=
  [progLine ("00001") ("CSCI") ("0701") ("BA") ("QUEENS"), forLineStr ("MS")]

/-- Concrete run for claim C5: the second program reaches its
accreditation line without a financial_aid line of its own. -/
def C5lines : List String :=
  [progLine ("00001") ("CSCI") ("0701") ("BA") ("QUEENS"), forLineStr ("BA"), certNoneLineStr,
   finLineStr ("YES") ("YES") ("YES"), accLineStr ("NONE"),
   progLine ("00002") ("MATH") ("1701") ("MA") ("QUEENS"), forLineStr ("MA"), accLineStr ("NONE")]

/-- The key the second program of C5lines emits from its base branch. -/
def C5key : Key := ⟨"00002", "Math", some ("1701   "), "MA", "Queens"⟩

/-- Concrete run for claim C10: an award-bearing M/I line followed by a
NOT-GRANTING M/I line for the same program. -/
def C10lines : List String :=
  [progLine ("00001") ("CSCI") ("0701") ("MA") ("QUEENS"), miLineStr ("1111") ("MA") ("YORK"),
   miLineStr ("2222") ("NOT-GRANTING") (""), forLineStr ("MA"), certNoneLineStr,
   finLineStr ("") ("") (""), accLineStr ("NONE")]

/-- The key claim C10 predicts: later hegis with earlier award and
institution. -/
def C10claimKey : Key := ⟨"00001", "Csci", some ("2222"), "MA", "York"⟩

/-- The key the base branch actually emits in the C10 run. -/
def C10baseKey : Key := ⟨"00001", "Csci", some ("0701   "), "MA", "Queens"⟩

/-- Concrete program line with an entirely blank classification-code
field, for claim C6. -/
def C6line : String := progLine ("00001") ("CSCI") ("") ("BA") ("QUEENS")

/-- A sample key for concrete merge checks. -/
def keyA : Key := ⟨"00001", "Csci", some ("0701"), "BA", "Queens"⟩

/-- A sample record. -/
def recA : Record := ⟨none, none, none, true, false, false, "X"⟩

/-- A different sample record for the same key. -/
def recB : Record := ⟨none, none, none, false, false, false, "Y"⟩

/-! Helper lemmas about the state and the merge operation. -/

@[simp] theorem addDiagIf_records (c : Prop) [Decidable c] (d : Diag) (s : PState) :
    (addDiagIf c d s).records = s.records := by
  unfold addDiagIf; split <;> rfl

@[simp] theorem addDiagIf_line_num (c : Prop) [Decidable c] (d : Diag) (s : PState) :
    (addDiagIf c d s).line_num = s.line_num := by
  unfold addDiagIf; split <;> rfl

@[simp] theorem addDiagIf_this_type (c : Prop) [Decidable c] (d : Diag) (s : PState) :
    (addDiagIf c d s).this_type = s.this_type := by
  unfold addDiagIf; split <;> rfl

@[simp] theorem addDiagIf_program_code (c : Prop) [Decidable c] (d : Diag) (s : PState) :
    (addDiagIf c d s).program_code = s.program_code := by
  unfold addDiagIf; split <;> rfl

@[simp] theorem addDiagIf_program_name (c : Prop) [Decidable c] (d : Diag) (s : PState) :
    (addDiagIf c d s).program_name = s.program_name := by
  unfold addDiagIf; split <;> rfl

@[simp] theorem addDiagIf_program_hegis (c : Prop) [Decidable c] (d : Diag) (s : PState) :
    (addDiagIf c d s).program_hegis = s.program_hegis := by
  unfold addDiagIf; split <;> rfl

@[simp] theorem addDiagIf_program_award (c : Prop) [Decidable c] (d : Diag) (s : PState) :
    (addDiagIf c d s).program_award = s.program_award := by
  unfold addDiagIf; split <;> rfl

@[simp] theorem addDiagIf_program_institution (c : Prop) [Decidable c] (d : Diag) (s : PState) :
    (addDiagIf c d s).program_institution = s.program_institution := by
  unfold addDiagIf; split <;> rfl

@[simp] theorem addDiagIf_maw_lines (c : Prop) [Decidable c] (d : Diag) (s : PState) :
    (addDiagIf c d s).maw_lines = s.maw_lines := by
  unfold addDiagIf; split <;> rfl

@[simp] theorem addDiagIf_maw_awards (c : Prop) [Decidable c] (d : Diag) (s : PState) :
    (addDiagIf c d s).maw_awards = s.maw_awards := by
  unfold addDiagIf; split <;> rfl

@[simp] theorem addDiagIf_minst_line (c : Prop) [Decidable c] (d : Diag) (s : PState) :
    (addDiagIf c d s).minst_line = s.minst_line := by
  unfold addDiagIf; split <;> rfl

@[simp] theorem addDiagIf_minst_hegis (c : Prop) [Decidable c] (d : Diag) (s : PState) :
    (addDiagIf c d s).minst_hegis = s.minst_hegis := by
  unfold addDiagIf; split <;> rfl

@[simp] theorem addDiagIf_minst_award (c : Prop) [Decidable c] (d : Diag) (s : PState) :
    (addDiagIf c d s).minst_award = s.minst_award := by
  unfold addDiagIf; split <;> rfl

@[simp] theorem addDiagIf_minst_institution (c : Prop) [Decidable c] (d : Diag) (s : PState) :
    (addDiagIf c d s).minst_institution = s.minst_institution := by
  unfold addDiagIf; split <;> rfl

@[simp] theorem addDiagIf_cert (c : Prop) [Decidable c] (d : Diag) (s : PState) :
    (addDiagIf c d s).cert = s.cert := by
  unfold addDiagIf; split <;> rfl

@[simp] theorem addDiagIf_fin_aid (c : Prop) [Decidable c] (d : Diag) (s : PState) :
    (addDiagIf c d s).fin_aid = s.fin_aid := by
  unfold addDiagIf; split <;> rfl

@[simp] theorem addDiagIf_for_award (c : Prop) [Decidable c] (d : Diag) (s : PState) :
    (addDiagIf c d s).for_award = s.for_award := by
  unfold addDiagIf; split <;> rfl

@[simp] theorem addDiagIf_num_dupes (c : Prop) [Decidable c] (d : Diag) (s : PState) :
    (addDiagIf c d s).num_dupes = s.num_dupes := by
  unfold addDiagIf; split <;> rfl

@[simp] theorem addDiagIf_program_codes (c : Prop) [Decidable c] (d : Diag) (s : PState) :
    (addDiagIf c d s).program_codes = s.program_codes := by
  unfold addDiagIf; split <;> rfl

theorem addDiagIf_diags (c : Prop) [Decidable c] (d : Diag) (s : PState) :
    (addDiagIf c d s).diags = if c then s.diags ++ [d] else s.diags := by
  unfold addDiagIf; split <;> rfl

theorem addDiagIf_pos (c : Prop) [Decidable c] (d : Diag) (s : PState) (h : c) :
    addDiagIf c d s = { s with diags := s.diags ++ [d] } := by
  unfold addDiagIf; exact if_pos h

theorem addDiagIf_neg (c : Prop) [Decidable c] (d : Diag) (s : PState) (h : ¬c) :
    addDiagIf c d s = s := by
  unfold addDiagIf; exact if_neg h

theorem recLookup_append_other (l : List (Key × Record)) (k k2 : Key) (r2 : Record)
    (h : k2 ≠ k) : recLookup (l ++ [(k2, r2)]) k = recLookup l k := by
  induction l with
  | nil => simp [recLookup, h]
  | cons p rest ih =>
    obtain ⟨k0, r0⟩ := p
    by_cases hk : k0 = k
    · simp [recLookup, hk]
    · simp [recLookup, hk, ih]

theorem recLookup_append_self (l : List (Key × Record)) (k : Key) (r : Record)
    (h : recLookup l k = none) : recLookup (l ++ [(k, r)]) k = some r := by
  induction l with
  | nil => simp [recLookup]
  | cons p rest ih =>
    obtain ⟨k0, r0⟩ := p
    by_cases hk : k0 = k
    · simp [recLookup, hk] at h
    · simp [recLookup, hk] at h ⊢
      exact ih h

theorem mergeRecOnly_pres (dr : Record) (l : List (Key × Record)) (k2 k : Key) (r : Record)
    (h : recLookup l k = some r) : recLookup (mergeRecOnly dr l k2) k = some r := by
  unfold mergeRecOnly
  cases hl : recLookup l k2 with
  | some _ => exact h
  | none =>
    have hne : k2 ≠ k := by
      intro e; rw [e, h] at hl; cases hl
    rw [recLookup_append_other l k k2 dr hne]; exact h

theorem mergeRecOnly_inv (dr : Record) (l : List (Key × Record)) (k2 k : Key)
    (h : recLookup l k = none ∨ recLookup l k = some dr) :
    recLookup (mergeRecOnly dr l k2) k = none ∨ recLookup (mergeRecOnly dr l k2) k = some dr := by
  unfold mergeRecOnly
  cases hl : recLookup l k2 with
  | some _ => exact h
  | none =>
    by_cases he : k2 = k
    · subst he
      cases h with
      | inl h0 => right; exact recLookup_append_self l k2 dr h0
      | inr h0 => rw [h0] at hl; cases hl
    · rw [recLookup_append_other l k k2 dr he]; exact h

theorem mergeRecOnly_self (dr : Record) (l : List (Key × Record)) (k : Key)
    (h : recLookup l k = none ∨ recLookup l k = some dr) :
    recLookup (mergeRecOnly dr l k) k = some dr := by
  unfold mergeRecOnly
  cases h with
  | inl h0 => rw [h0]; exact recLookup_append_self l k dr h0
  | inr h0 => rw [h0]; exact h0

theorem mergeRecsAll_pres (dr : Record) (ks : List Key) (l : List (Key × Record)) (k : Key)
    (r : Record) (h : recLookup l k = some r) :
    recLookup (mergeRecsAll dr l ks) k = some r := by
  induction ks generalizing l with
  | nil => exact h
  | cons a t ih =>
    unfold mergeRecsAll
    rw [List.foldl_cons]
    exact ih (mergeRecOnly dr l a) (mergeRecOnly_pres dr l a k r h)

theorem mergeRecsAll_inv (dr : Record) (ks : List Key) (l : List (Key × Record)) (k : Key)
    (h : recLookup l k = none ∨ recLookup l k = some dr) :
    recLookup (mergeRecsAll dr l ks) k = none ∨ recLookup (mergeRecsAll dr l ks) k = some dr := by
  induction ks generalizing l with
  | nil => exact h
  | cons a t ih =>
    unfold mergeRecsAll
    rw [List.foldl_cons]
    exact ih (mergeRecOnly dr l a) (mergeRecOnly_inv dr l a k h)

theorem mergeRecsAll_mem (dr : Record) (ks : List Key) (l : List (Key × Record)) (k : Key)
    (hk : k ∈ ks) (h : recLookup l k = none ∨ recLookup l k = some dr) :
    recLookup (mergeRecsAll dr l ks) k = some dr := by
  induction ks generalizing l with
  | nil => cases hk
  | cons a t ih =>
    unfold mergeRecsAll
    rw [List.foldl_cons]
    rcases List.mem_cons.mp hk with he | ht
    · subst he
      exact mergeRecsAll_pres dr t (mergeRecOnly dr l k) k dr (mergeRecOnly_self dr l k h)
    · exact ih (mergeRecOnly dr l a) ht (mergeRecOnly_inv dr l a k h)

theorem mergeKR_fst (mkd : Key → Record → Record → Diag) (dr : Record)
    (rd : List (Key × Record) × List Diag) (k : Key) :
    (mergeKR mkd dr rd k).1 = mergeRecOnly dr rd.1 k := by
  unfold mergeKR mergeRecOnly
  cases hl : recLookup rd.1 k with
  | some old => simp only [hl]; split <;> rfl
  | none => simp only [hl]

theorem foldMergeKR_fst (mkd : Key → Record → Record → Diag) (dr : Record) (ks : List Key)
    (rd : List (Key × Record) × List Diag) :
    (ks.foldl (mergeKR mkd dr) rd).1 = mergeRecsAll dr rd.1 ks := by
  induction ks generalizing rd with
  | nil => rfl
  | cons a t ih =>
    rw [List.foldl_cons]
    unfold mergeRecsAll
    rw [List.foldl_cons, ih (mergeKR mkd dr rd a), mergeKR_fst]
    rfl

theorem accredMawRD_ok (s : PState) (fa : String) (dr : Record) (mas : List String)
    (rd : List (Key × Record) × List Diag) (mls : List MAW_line) (pc : String)
    (hmls : s.maw_lines = some mls) (hpc : s.program_code = some pc) :
    accredMawRD s fa dr mas rd =
      Sum.inl ((mawKeysOf pc mls mas fa).foldl (mergeKR Diag.dupMawKeyConflict dr) rd) := by
  unfold accredMawRD mawKeysOf
  rw [hmls]
  by_cases hin : fa ∈ mas
  · simp only [if_pos hin]
    by_cases hempty : mawMatches mls fa = []
    · simp [hempty]
    · simp only [if_neg hempty, hpc, List.foldl_map]
  · simp [if_neg hin]

theorem accredMIRD_ok (s : PState) (fa : String) (dr : Record)
    (rd : List (Key × Record) × List Diag) (ml : Bool) (ma mh : Option String)
    (pc pn mi : String)
    (hml : s.minst_line = some ml) (hma : s.minst_award = some ma)
    (hpc : s.program_code = some pc) (hpn : s.program_name = some pn)
    (hmh : s.minst_hegis = some mh) (hmi : s.minst_institution = some mi) :
    accredMIRD s fa dr rd =
      Sum.inl ((miKeysOf ml ma pc pn mh mi fa).foldl (mergeKR Diag.dupMIKeyConflict dr) rd) := by
  unfold accredMIRD miKeysOf
  rw [hml]
  cases ml with
  | false => simp
  | true =>
    simp only [if_pos rfl, hma]
    by_cases heq : ma = some fa
    · simp [heq, hpc, hpn, hmh, hmi]
    · simp [heq]

theorem accredBaseRD_ok (s : PState) (fa : String) (dr : Record)
    (rd : List (Key × Record) × List Diag) (pa pc pn ph pi : String)
    (hpa : s.program_award = some pa) (hpc : s.program_code = some pc)
    (hpn : s.program_name = some pn) (hph : s.program_hegis = some ph)
    (hpi : s.program_institution = some pi) :
    accredBaseRD s fa dr rd =
      Sum.inl ((baseKeysOf pa fa pc pn ph pi).foldl (mergeKR Diag.dupProgramKeyConflict dr) rd) := by
  unfold accredBaseRD baseKeysOf
  rw [hpa]
  by_cases heq : pa = fa
  · simp [heq, hpc, hpn, hph, hpi]
  · simp [heq]

theorem mawKey_injective (pc : String) : Function.Injective (mawKey pc) := by
  intro a b h
  cases a with
  | mk an ah aw ai =>
    cases b with
    | mk bn bh bw bi =>
      simp only [mawKey, Key.mk.injEq, Option.some.injEq, true_and] at h
      obtain ⟨h1, h2, h3, h4⟩ := h
      simp [h1, h2, h3, h4]

/-- On a state whose accreditation-branch reads are all bound, the branch
succeeds and its records are the three expansion blocks merged in order
into the incoming records. -/
theorem stepAccred_ok (s : PState) (prev : LineType) (line : String)
    (cert : Certs_etc) (f : Financial_aid) (A : String) (mas : List String) (mls : List MAW_line)
    (pc pn ph pa pi mi : String) (ml : Bool) (ma mh : Option String)
    (hc : s.cert = some cert) (hf : s.fin_aid = some f) (hfa : s.for_award = some A)
    (hmas : s.maw_awards = some mas) (hmls : s.maw_lines = some mls)
    (hpc : s.program_code = some pc) (hml : s.minst_line = some ml)
    (hma : s.minst_award = some ma) (hpn : s.program_name = some pn)
    (hmh : s.minst_hegis = some mh) (hmi : s.minst_institution = some mi)
    (hpa : s.program_award = some pa) (hph : s.program_hegis = some ph)
    (hpi : s.program_institution = some pi) :
    ∃ s2, stepAccred s prev line = StepOut.ok s2 ∧
      s2.records =
        mergeRecsAll (dataRecordOf cert f (pyStrip (pySliceFrom line 45)))
          (mergeRecsAll (dataRecordOf cert f (pyStrip (pySliceFrom line 45)))
            (mergeRecsAll (dataRecordOf cert f (pyStrip (pySliceFrom line 45)))
              s.records (mawKeysOf pc mls mas A))
            (miKeysOf ml ma pc pn mh mi A))
          (baseKeysOf pa A pc pn ph pi) := by
  unfold stepAccred
  simp only [addDiagIf_cert, addDiagIf_fin_aid, addDiagIf_for_award, addDiagIf_maw_awards,
    addDiagIf_maw_lines, addDiagIf_program_code, addDiagIf_records, hc, hf, hfa, hmas]
  rw [accredMawRD_ok _ _ _ _ _ mls pc (by simp [hmls]) (by simp [hpc])]
  simp only []
  rw [accredMIRD_ok _ _ _ _ ml ma mh pc pn mi (by simp [hml]) (by simp [hma])
    (by simp [hpc]) (by simp [hpn]) (by simp [hmh]) (by simp [hmi])]
  simp only []
  rw [accredBaseRD_ok _ _ _ _ pa pc pn ph pi (by simp [hpa]) (by simp [hpc])
    (by simp [hpn]) (by simp [hph]) (by simp [hpi])]
  simp only []
  refine ⟨_, rfl, ?_⟩
  simp only [foldMergeKR_fst, addDiagIf_records]

/-- A line whose token list starts with M/I is dispatched to the M/I
branch. -/
theorem step_route_MI (s : PState) (line : String) (ts : List String)
    (htok : pySplit line = "M/I" :: ts) :
    step s line = stepMI { s with line_num := s.line_num + 1 } s.this_type line := by
  have h1 : pyIsDecimal ("M/I") = false := by decide
  unfold step
  rw [htok]
  simp [h1]

/-- A line whose token list starts with M/A is dispatched to the M/A
branch. -/
theorem step_route_MA (s : PState) (line : String) (ts : List String)
    (htok : pySplit line = "M/A" :: ts) :
    step s line = stepMA { s with line_num := s.line_num + 1 } s.this_type line := by
  have h1 : pyIsDecimal ("M/A") = false := by decide
  unfold step
  rw [htok]
  simp [h1]

/-- A line with no tokens at all crashes on tokens[0]. -/
theorem step_empty_crash (s : PState) (line : String) (htok : pySplit line = []) :
    step s line = StepOut.crash { s with line_num := s.line_num + 1 } ("IndexError: tokens") := by
  unfold step
  rw [htok]

/-- A line whose sole token is PROGRAM crashes on tokens[1]. -/
theorem step_PROGRAM_crash (s : PState) (line : String) (htok : pySplit line = ["PROGRAM"]) :
    step s line = StepOut.crash { s with line_num := s.line_num + 1 } ("IndexError: tokens") := by
  have h1 : pyIsDecimal ("PROGRAM") = false := by decide
  have h2 : pyStartsWith ("PROGRAM") ("CERT") = false := by decide
  unfold step
  rw [htok]
  simp [h1, h2]

/-- A line with at least one token matching none of the seven patterns is
reported as unrecognized and changes nothing but line_num and the
diagnostics. -/
theorem step_route_unrecognized (s : PState) (line tok : String) (ts : List String)
    (htok : pySplit line = tok :: ts)
    (hdec : pyIsDecimal tok = false) (h1 : tok ≠ "M/A") (h2 : tok ≠ "M/I") (h3 : tok ≠ "FOR")
    (h4 : pyStartsWith tok ("CERT") = false)
    (h5 : tok = "PROGRAM" → ∃ t1 ts2, ts = t1 :: ts2 ∧ t1 ≠ "FINANCIAL" ∧ t1 ≠ "PROFESSIONAL") :
    step s line = StepOut.ok
      { s with
        line_num := s.line_num + 1
        diags := s.diags ++ [Diag.unrecognized (s.line_num + 1) line] } := by
  unfold step
  rw [htok]
  by_cases hp : tok = "PROGRAM"
  · obtain ⟨t1, ts2, hts, hfin, hpro⟩ := h5 hp
    subst hp
    subst hts
    simp [hdec, h1, h2, h3, h4, hfin, hpro]
  · simp [hdec, h1, h2, h3, h4, hp]

/-- Claim C1: for a program whose multi-award set contains exactly N
entries whose award equals A, the accreditation line terminating the
for_award-A sub-block emits exactly N keys from the M/A branch, one per
multi-award entry (Key = (program_code, entry name, entry hegis, A,
entry institution)), all merged with the same data record; and the three
expansion branches (multi-award, multi-institution override, base
program) are evaluated independently, not mutually exclusively: every
key of the concatenation of the three branch key lists ends up mapped to
the same record, and the M/I and base branches contribute their key
exactly when their own conditions hold, regardless of the M/A branch. -/
theorem C1_multi_award_expansion
    (s : PState) (prev : LineType) (line : String) (N : Nat)
    (cert : Certs_etc) (f : Financial_aid) (A : String) (mas : List String) (mls : List MAW_line)
    (pc pn ph pa pi mi : String) (ml : Bool) (ma mh : Option String)
    (hc : s.cert = some cert) (hf : s.fin_aid = some f) (hfa : s.for_award = some A)
    (hmas : s.maw_awards = some mas) (hmls : s.maw_lines = some mls)
    (hpc : s.program_code = some pc) (hml : s.minst_line = some ml)
    (hma : s.minst_award = some ma) (hpn : s.program_name = some pn)
    (hmh : s.minst_hegis = some mh) (hmi : s.minst_institution = some mi)
    (hpa : s.program_award = some pa) (hph : s.program_hegis = some ph)
    (hpi : s.program_institution = some pi)
    (hN : (mawMatches mls A).length = N) (hA : A ∈ mas) (hnd : mls.Nodup) :
    ∃ s2, stepAccred s prev line = StepOut.ok s2 ∧
      (mawKeysOf pc mls mas A).length = N ∧
      (mawKeysOf pc mls mas A).Nodup ∧
      (∀ m ∈ mls, m.award = A → mawKey pc m ∈ mawKeysOf pc mls mas A) ∧
      (∀ k ∈ mawKeysOf pc mls mas A ++ miKeysOf ml ma pc pn mh mi A ++
          baseKeysOf pa A pc pn ph pi,
        recLookup s.records k = none →
        recLookup s2.records k = some (dataRecordOf cert f (pyStrip (pySliceFrom line 45)))) ∧
      (ml = true → ma = some A → miKeysOf ml ma pc pn mh mi A = [miKeyOf pc pn mh A mi]) ∧
      (pa = A → baseKeysOf pa A pc pn ph pi = [baseKeyOf pc pn ph pa pi]) := by
  obtain ⟨s2, he, hrec⟩ := stepAccred_ok s prev line cert f A mas mls pc pn ph pa pi mi ml ma mh
    hc hf hfa hmas hmls hpc hml hma hpn hmh hmi hpa hph hpi
  refine ⟨s2, he, ?_, ?_, ?_, ?_, ?_, ?_⟩
  · simp [mawKeysOf, if_pos hA, hN]
  · unfold mawKeysOf
    rw [if_pos hA]
    exact (hnd.filter _).map (mawKey_injective pc)
  · intro m hm haw
    unfold mawKeysOf
    rw [if_pos hA]
    exact List.mem_map_of_mem (mawKey pc)
      (List.mem_filter.mpr ⟨hm, by simp [haw]⟩)
  · intro k hk hnone
    rw [hrec]
    rcases List.mem_append.mp hk with hk2 | hbk
    · rcases List.mem_append.mp hk2 with hmk | hmik
      · exact mergeRecsAll_pres _ _ _ _ _ (mergeRecsAll_pres _ _ _ _ _
          (mergeRecsAll_mem _ _ _ _ hmk (Or.inl hnone)))
      · exact mergeRecsAll_pres _ _ _ _ _
          (mergeRecsAll_mem _ _ _ _ hmik (mergeRecsAll_inv _ _ _ _ (Or.inl hnone)))
    · exact mergeRecsAll_mem _ _ _ _ hbk
        (mergeRecsAll_inv _ _ _ _ (mergeRecsAll_inv _ _ _ _ (Or.inl hnone)))
  · intro h1 h2
    simp [miKeysOf, h1, h2]
  · intro h1
    simp [baseKeysOf, h1]

/-- Witness for C1: the bound state with two M/A entries of award MS, a
for-award of MS, and a base award BA, at a concrete accreditation line. -/
theorem C1_multi_award_expansion_witness :
    (mawMatches [mawA, mawB] ("MS")).length = 2 ∧ ("MS") ∈ [("MS")] ∧
      ([mawA, mawB] : List MAW_line).Nodup ∧
    (∃ s2, stepAccred boundState LineType.financial_aid (accLineStr ("ABET")) = StepOut.ok s2 ∧
      (mawKeysOf ("00001") [mawA, mawB] [("MS")] ("MS")).length = 2 ∧
      (mawKeysOf ("00001") [mawA, mawB] [("MS")] ("MS")).Nodup ∧
      (∀ m ∈ [mawA, mawB], m.award = "MS" →
        mawKey ("00001") m ∈ mawKeysOf ("00001") [mawA, mawB] [("MS")] ("MS")) ∧
      (∀ k ∈ mawKeysOf ("00001") [mawA, mawB] [("MS")] ("MS") ++
          miKeysOf false none ("00001") ("Csci") none ("") ("MS") ++
          baseKeysOf ("BA") ("MS") ("00001") ("Csci") ("0701   ") ("Queens"),
        recLookup boundState.records k = none →
        recLookup s2.records k =
          some (dataRecordOf ⟨none, none, none⟩ ⟨true, false, false⟩
            (pyStrip (pySliceFrom (accLineStr ("ABET")) 45)))) ∧
      (false = true → none = some ("MS") →
        miKeysOf false none ("00001") ("Csci") none ("") ("MS") =
          [miKeyOf ("00001") ("Csci") none ("MS") ("")]) ∧
      (("BA") = "MS" → baseKeysOf ("BA") ("MS") ("00001") ("Csci") ("0701   ") ("Queens") =
        [baseKeyOf ("00001") ("Csci") ("0701   ") ("BA") ("Queens")])) :=
  ⟨by decide, by decide, by decide,
    C1_multi_award_expansion boundState LineType.financial_aid (accLineStr ("ABET")) 2
      ⟨none, none, none⟩ ⟨true, false, false⟩ ("MS") [("MS")] [mawA, mawB]
      ("00001") ("Csci") ("0701   ") ("BA") ("Queens") ("") false none none
      rfl rfl rfl rfl rfl rfl rfl rfl rfl rfl rfl rfl rfl rfl
      (by decide) (by decide) (by decide)⟩

/-- Claim C2 (code bug in the source): on a for_award line whose award
matches neither the program base award nor any multi-award entry, the
source intends to print a diagnostic with the 1-based line number and
the offending award and then exit, but the arguments of that print
include the name awards, which is assigned nowhere in the script;
evaluating the arguments raises NameError first, so the run terminates
with an uncaught exception, the intended diagnostic is never printed,
and no output artifact is produced.  This theorem evaluates the script
at such an input: the crash carries the undefined name, the diagnostics
are empty, and nothing is handed to the emitter. -/
theorem C2_for_award_fatal_diagnostic :
    crashErr (runProgram C2lines) = some ("NameError: awards") ∧
    crashDiags (runProgram C2lines) = some [] ∧
    emittedRecords (runProgram C2lines) = none := by decide

/-- Claim C3: when a key is already present in the global record mapping,
a later merge of the same key leaves the mapping unchanged at that key
(the first-inserted record is retained, the later one discarded); when
the later record differs a data-conflict diagnostic is appended, and
when it is identical nothing is reported; an existing entry is never
overwritten. -/
theorem C3_first_write_wins (mkd : Key → Record → Record → Diag) (dr old : Record)
    (rd : List (Key × Record) × List Diag) (k : Key)
    (h : recLookup rd.1 k = some old) :
    (mergeKR mkd dr rd k).1 = rd.1 ∧
    recLookup (mergeKR mkd dr rd k).1 k = some old ∧
    (old ≠ dr → (mergeKR mkd dr rd k).2 = rd.2 ++ [mkd k old dr]) ∧
    (old = dr → (mergeKR mkd dr rd k).2 = rd.2) := by
  unfold mergeKR
  simp only [h]
  by_cases hne : old ≠ dr
  · simp [hne, h]
  · simp [hne, h]

/-- Witness for C3: merging keyA a second time with a different record
keeps recA and reports the conflict. -/
theorem C3_first_write_wins_witness :
    recLookup ([(keyA, recA)] : List (Key × Record)) keyA = some recA ∧
    ((mergeKR Diag.dupMawKeyConflict recB ([(keyA, recA)], []) keyA).1 = [(keyA, recA)] ∧
     recLookup (mergeKR Diag.dupMawKeyConflict recB ([(keyA, recA)], []) keyA).1 keyA =
       some recA ∧
     (recA ≠ recB → (mergeKR Diag.dupMawKeyConflict recB ([(keyA, recA)], []) keyA).2 =
       [] ++ [Diag.dupMawKeyConflict keyA recA recB]) ∧
     (recA = recB → (mergeKR Diag.dupMawKeyConflict recB ([(keyA, recA)], []) keyA).2 = [])) :=
  ⟨by decide,
   C3_first_write_wins Diag.dupMawKeyConflict recB recA ([(keyA, recA)], []) keyA (by decide)⟩

/-- Claim C4: a second multiple_institutions line carrying an award for a
program code that already has an award-bearing override makes the step
exit: the records are unchanged by that line, and however much input
remains, the run ends as fatalExit with nothing handed to the emitter. -/
theorem C4_second_award_MI_fatal (s : PState) (line : String) (ts : List String) (pc : String)
    (htok : pySplit line = "M/I" :: ts)
    (hml : s.minst_line = some true) (hpc : s.program_code = some pc)
    (ha : pyTruthy (miAward line) = true) :
    ∃ s2, step s line = StepOut.fatal s2 ∧ s2.records = s.records ∧
      ∀ rest, runLines s (line :: rest) = RunOutcome.fatalExit s2 ∧
        emittedRecords (runLines s (line :: rest)) = none := by
  have hroute := step_route_MI s line ts htok
  have hmi2 : ∃ s2, stepMI { s with line_num := s.line_num + 1 } s.this_type line =
      StepOut.fatal s2 ∧ s2.records = s.records := by
    unfold stepMI
    simp only [ha, addDiagIf_minst_line, addDiagIf_program_code, addDiagIf_records, hml, hpc]
    exact ⟨_, rfl, by simp⟩
  obtain ⟨s2, hmi, hr⟩ := hmi2
  have hstep : step s line = StepOut.fatal s2 := by rw [hroute, hmi]
  refine ⟨s2, hstep, hr, ?_⟩
  intro rest
  have hrun : runLines s (line :: rest) = RunOutcome.fatalExit s2 := by
    simp only [runLines, hstep]
  exact ⟨hrun, by rw [hrun]; rfl⟩

/-- Witness for C4: a bound state whose override flag is set, at a second
award-bearing M/I line. -/
theorem C4_second_award_MI_fatal_witness :
    pySplit (miLineStr ("0701") ("MA") ("York")) = "M/I" :: ["0701", "MA", "York"] ∧
    ({ boundState with minst_line := some true } : PState).minst_line = some true ∧
    pyTruthy (miAward (miLineStr ("0701") ("MA") ("York"))) = true ∧
    (∃ s2, step { boundState with minst_line := some true } (miLineStr ("0701") ("MA") ("York")) =
        StepOut.fatal s2 ∧
      s2.records = ({ boundState with minst_line := some true } : PState).records ∧
      ∀ rest, runLines { boundState with minst_line := some true }
          (miLineStr ("0701") ("MA") ("York") :: rest) = RunOutcome.fatalExit s2 ∧
        emittedRecords (runLines { boundState with minst_line := some true }
          (miLineStr ("0701") ("MA") ("York") :: rest)) = none) :=
  ⟨by decide, rfl, by decide,
   C4_second_award_MI_fatal { boundState with minst_line := some true }
     (miLineStr ("0701") ("MA") ("York")) ["0701", "MA", "York"] ("00001")
     (by decide) rfl rfl (by decide)⟩

/-- Counterexample to claim C5: in the concrete run C5lines the second
program reaches its accreditation line without any financial_aid line of
its own, yet the record emitted for it has all three financial-aid
booleans true, carried over from the first program's financial_aid line;
the claim says they would be false. -/
theorem C5_fin_aid_counterexample :
    finalLookup (runProgram C5lines) C5key =
      some ⟨none, none, none, true, true, true, "NONE"⟩ := by decide

/-- Claim C5 as amended: the program line rebuilds the multi-award set,
the multi-institution flag and the certificate info, but it does not
touch the financial-aid state, which therefore carries over from a
previous program; and if no financial_aid line has ever been processed,
the accreditation branch crashes on the unbound fin_aid variable instead
of defaulting the three booleans to false. -/
theorem C5_fin_aid_not_reset (s : PState) (prev prev2 : LineType) (pl al tok : String) :
    ∃ s1, stepProgram s prev pl tok = StepOut.ok s1 ∧
      s1.fin_aid = s.fin_aid ∧ s1.maw_lines = some [] ∧ s1.maw_awards = some [] ∧
      s1.minst_line = some false ∧ s1.cert = some ⟨none, none, none⟩ ∧
      (s.fin_aid = none →
        ∃ s2, stepAccred s1 prev2 al = StepOut.crash s2 ("NameError: fin_aid")) := by
  refine ⟨stepProgramS s prev pl tok, rfl, ?_, ?_, ?_, ?_, ?_, ?_⟩
  · unfold stepProgramS; simp
  · unfold stepProgramS; simp
  · unfold stepProgramS; simp
  · unfold stepProgramS; simp
  · unfold stepProgramS; simp
  · intro hnone
    have hcert : (stepProgramS s prev pl tok).cert = some ⟨none, none, none⟩ := by
      unfold stepProgramS; simp
    have hfin : (stepProgramS s prev pl tok).fin_aid = none := by
      unfold stepProgramS; simp [hnone]
    unfold stepAccred
    simp only [addDiagIf_cert, addDiagIf_fin_aid, hcert, hfin]
    exact ⟨_, rfl⟩

/-- Witness for C5 as amended: from the initial state (fin_aid unbound),
a program line leaves fin_aid unbound and a following accreditation line
crashes on it. -/
theorem C5_fin_aid_not_reset_witness :
    initState.fin_aid = none ∧
    (∃ s1, stepProgram initState LineType.accreditation C6line ("00001") = StepOut.ok s1 ∧
      s1.fin_aid = initState.fin_aid ∧ s1.maw_lines = some [] ∧ s1.maw_awards = some [] ∧
      s1.minst_line = some false ∧ s1.cert = some ⟨none, none, none⟩ ∧
      (initState.fin_aid = none →
        ∃ s2, stepAccred s1 LineType.financial_aid (accLineStr ("NONE")) =
          StepOut.crash s2 ("NameError: fin_aid"))) :=
  ⟨rfl, C5_fin_aid_not_reset initState LineType.accreditation LineType.financial_aid
    C6line (accLineStr ("NONE")) ("00001")⟩

/-- Counterexample to claim C6: the program line of C6line has an
entirely blank classification-code field, yet after the run the
extracted value is the raw seven-space slice: not absent, and not
trimmed. -/
theorem C6_hegis_counterexample :
    finalProgramHegis (runProgram [C6line]) = some (some ("       ")) ∧
    pyStrip ("       ") = "" := by decide

/-- Claim C6 as amended: only the M/I line treats a blank
classification-code field as absent (and trims it); the M/A line trims
its classification code but a blank one stays the empty string; the
program line stores the raw 52..59 slice, neither trimmed nor nulled,
while its award field is trimmed. -/
theorem C6_hegis_extraction (s : PState) (prev : LineType) (line tok : String) :
    (∃ s1, stepProgram s prev line tok = StepOut.ok s1 ∧
      s1.program_hegis = some (pySlice line 52 59) ∧
      s1.program_award = some (pyStrip (pySlice line 63 76))) ∧
    (miHegis line = none ↔ pyStrip (pySlice line 52 59) = "") ∧
    (∀ h0, miHegis line = some h0 → h0 = pyStrip (pySlice line 52 59)) ∧
    (mawOf line).hegis = pyStrip (pySlice line 52 59) := by
  refine ⟨⟨stepProgramS s prev line tok, rfl, ?_, ?_⟩, ?_, ?_, rfl⟩
  · unfold stepProgramS; simp
  · unfold stepProgramS; simp
  · unfold miHegis
    by_cases hb : pyStrip (pySlice line 52 59) = "" <;> simp [hb]
  · intro h0 hh
    unfold miHegis at hh
    by_cases hb : pyStrip (pySlice line 52 59) = ""
    · simp [hb] at hh
    · simp only [if_neg hb, Option.some.injEq] at hh
      exact hh.symm

/-- Witness for C6 as amended, at a line whose classification field is
nonblank so that the M/I some-case is exercised. -/
theorem C6_hegis_extraction_witness :
    miHegis (miLineStr ("0701") ("MA") ("York")) = some ("0701") ∧
    ((∃ s1, stepProgram boundState LineType.accreditation
        (miLineStr ("0701") ("MA") ("York")) ("00001") = StepOut.ok s1 ∧
      s1.program_hegis = some (pySlice (miLineStr ("0701") ("MA") ("York")) 52 59) ∧
      s1.program_award = some (pyStrip (pySlice (miLineStr ("0701") ("MA") ("York")) 63 76))) ∧
    (miHegis (miLineStr ("0701") ("MA") ("York")) = none ↔
      pyStrip (pySlice (miLineStr ("0701") ("MA") ("York")) 52 59) = "") ∧
    (∀ h0, miHegis (miLineStr ("0701") ("MA") ("York")) = some h0 →
      h0 = pyStrip (pySlice (miLineStr ("0701") ("MA") ("York")) 52 59)) ∧
    (mawOf (miLineStr ("0701") ("MA") ("York"))).hegis =
      pyStrip (pySlice (miLineStr ("0701") ("MA") ("York")) 52 59)) :=
  ⟨by decide, C6_hegis_extraction boundState LineType.accreditation
    (miLineStr ("0701") ("MA") ("York")) ("00001")⟩

/-- Counterexample to claim C7: an M/A line as the very first line of the
run (before any program line) is not "parsed without aborting": the
per-program multi-award set is unbound, so the run dies with NameError
and nothing reaches the emitter. -/
theorem C7_MA_at_start_counterexample :
    crashErr (runProgram [mawLineStr ("CSCI") ("0702") ("MS") ("YORK")]) =
      some ("NameError: maw_lines") ∧
    emittedRecords (runProgram [mawLineStr ("CSCI") ("0702") ("MS") ("YORK")]) = none := by
  decide

/-- Claim C7 as amended: an illegal transition such as an M/A line right
after a financial_aid line is reported with its line number and the line
is still parsed (the entry is added to the multi-award set and its award
to the award set), provided the per-program context exists; but an M/A
line arriving before any program line crashes the run on the unbound
multi-award set instead of being parsed. -/
theorem C7_unexpected_MA_parsed (s : PState) (line : String) (ts : List String)
    (mls : List MAW_line) (mas : List String)
    (htok : pySplit line = "M/A" :: ts)
    (hprev : s.this_type = LineType.financial_aid)
    (hmls : s.maw_lines = some mls) (hmas : s.maw_awards = some mas)
    (hfresh : mawOf line ∉ mls) :
    (∃ s1, step s line = StepOut.ok s1 ∧
      s1.diags = s.diags ++ [Diag.unexpectedMA (s.line_num + 1)] ∧
      s1.maw_lines = some (mls ++ [mawOf line]) ∧
      s1.maw_awards = some (setAdd mas (mawOf line).award)) ∧
    (∀ t : PState, t.maw_lines = none →
      ∃ t2, step t line = StepOut.crash t2 ("NameError: maw_lines")) := by
  constructor
  · rw [step_route_MA s line ts htok]
    unfold stepMA stepMAfinish
    have hcond : LineType.financial_aid ≠ LineType.program ∧
        LineType.financial_aid ≠ LineType.multiple_institutions := by decide
    simp only [addDiagIf_maw_lines, addDiagIf_maw_awards, hprev, hmls, hmas]
    rw [addDiagIf_pos _ _ _ hcond]
    simp only [if_neg hfresh]
    refine ⟨_, rfl, by simp, ?_, by simp⟩
    simp [setAdd, if_neg hfresh]
  · intro t hnone
    rw [step_route_MA t line ts htok]
    unfold stepMA
    simp only [addDiagIf_maw_lines, hnone]
    exact ⟨_, rfl⟩

/-- Witness for C7 as amended: boundState has this_type financial_aid, so
a fresh M/A line right after it is flagged and still parsed; initState
has maw_lines unbound. -/
theorem C7_unexpected_MA_parsed_witness :
    pySplit (mawLineStr ("CSCID") ("0704") ("MS") ("CITY")) =
      "M/A" :: ["CSCID", "0704", "MS", "CITY"] ∧
    boundState.this_type = LineType.financial_aid ∧
    mawOf (mawLineStr ("CSCID") ("0704") ("MS") ("CITY")) ∉ [mawA, mawB] ∧
    ((∃ s1, step boundState (mawLineStr ("CSCID") ("0704") ("MS") ("CITY")) = StepOut.ok s1 ∧
      s1.diags = boundState.diags ++ [Diag.unexpectedMA (boundState.line_num + 1)] ∧
      s1.maw_lines = some ([mawA, mawB] ++ [mawOf (mawLineStr ("CSCID") ("0704") ("MS") ("CITY"))]) ∧
      s1.maw_awards = some (setAdd [("MS")] (mawOf (mawLineStr ("CSCID") ("0704") ("MS") ("CITY"))).award)) ∧
    (∀ t : PState, t.maw_lines = none →
      ∃ t2, step t (mawLineStr ("CSCID") ("0704") ("MS") ("CITY")) =
        StepOut.crash t2 ("NameError: maw_lines"))) :=
  ⟨by decide, rfl, by decide,
   C7_unexpected_MA_parsed boundState (mawLineStr ("CSCID") ("0704") ("MS") ("CITY"))
     ["CSCID", "0704", "MS", "CITY"] [mawA, mawB] [("MS")]
     (by decide) rfl rfl rfl (by decide)⟩

/-- Counterexample to claim C8: an empty line and a line whose sole token
is PROGRAM both abort the run with an uncaught IndexError, although the
claim says no input line causes the run to abort. -/
theorem C8_no_abort_counterexample :
    crashErr (runProgram [""]) = some ("IndexError: tokens") ∧
    crashErr (runProgram ["PROGRAM"]) = some ("IndexError: tokens") ∧
    emittedRecords (runProgram [""]) = none := by decide

/-- Claim C8 as amended: a line with at least one token matching none of
the seven classifier patterns is reported as unrecognized and skipped
with no change to parser state beyond the line counter and the
diagnostics; but an empty or whitespace-only line crashes the run on
tokens[0], and a line whose sole token is PROGRAM crashes it on
tokens[1]. -/
theorem C8_unrecognized_skipped (s : PState) (line l2 l3 tok : String) (ts : List String)
    (htok : pySplit line = tok :: ts)
    (hdec : pyIsDecimal tok = false) (h1 : tok ≠ "M/A") (h2 : tok ≠ "M/I") (h3 : tok ≠ "FOR")
    (h4 : pyStartsWith tok ("CERT") = false)
    (h5 : tok = "PROGRAM" → ∃ t1 ts2, ts = t1 :: ts2 ∧ t1 ≠ "FINANCIAL" ∧ t1 ≠ "PROFESSIONAL")
    (he2 : pySplit l2 = []) (he3 : pySplit l3 = ["PROGRAM"]) :
    step s line = StepOut.ok
      { s with
        line_num := s.line_num + 1
        diags := s.diags ++ [Diag.unrecognized (s.line_num + 1) line] } ∧
    step s l2 = StepOut.crash { s with line_num := s.line_num + 1 } ("IndexError: tokens") ∧
    step s l3 = StepOut.crash { s with line_num := s.line_num + 1 } ("IndexError: tokens") :=
  ⟨step_route_unrecognized s line tok ts htok hdec h1 h2 h3 h4 h5,
   step_empty_crash s l2 he2, step_PROGRAM_crash s l3 he3⟩

/-- Witness for C8 as amended, with an unrecognized two-token line, a
whitespace-only line, and a bare PROGRAM line. -/
theorem C8_unrecognized_skipped_witness :
    pySplit ("XYZ junk") = "XYZ" :: ["junk"] ∧ pySplit ("   ") = [] ∧
    pySplit ("PROGRAM") = [("PROGRAM")] ∧
    (step boundState ("XYZ junk") = StepOut.ok
      { boundState with
        line_num := boundState.line_num + 1
        diags := boundState.diags ++ [Diag.unrecognized (boundState.line_num + 1) ("XYZ junk")] } ∧
    step boundState ("   ") =
      StepOut.crash { boundState with line_num := boundState.line_num + 1 }
        ("IndexError: tokens") ∧
    step boundState ("PROGRAM") =
      StepOut.crash { boundState with line_num := boundState.line_num + 1 }
        ("IndexError: tokens")) :=
  ⟨by decide, by decide, by decide,
   C8_unrecognized_skipped boundState ("XYZ junk") ("   ") ("PROGRAM") ("XYZ") ["junk"]
     (by decide) (by decide) (by decide) (by decide) (by decide) (by decide)
     (fun h => absurd h (by decide)) (by decide) (by decide)⟩

/-- Claim C9: each financial-aid boolean is true exactly when the
substring sliced from its fixed column range (54..57, 66..69, 77..80,
with Python slicing clamped at the end of the line) equals the literal
YES; the closed conjuncts check a partial overlap (a line ending with YE
inside the first range) and a NO value, both yielding false. -/
theorem C9_financial_aid_booleans (s : PState) (prev : LineType) (line : String) :
    (∃ s1 f, stepFinAid s prev line = StepOut.ok s1 ∧ s1.fin_aid = some f ∧
      (f.tap = true ↔ pySlice line 54 57 = "YES") ∧
      (f.apts = true ↔ pySlice line 66 69 = "YES") ∧
      (f.vvta = true ↔ pySlice line 77 80 = "YES")) ∧
    (stepFinAidS initState LineType.for_award (padTo ("PROGRAM FINANCIAL") 54 ++ "YE")).fin_aid =
      some ⟨false, false, false⟩ ∧
    (stepFinAidS initState LineType.for_award (finLineStr ("YES") ("NO") ("YES"))).fin_aid =
      some ⟨true, false, true⟩ := by
  refine ⟨⟨stepFinAidS s prev line,
    ⟨decide (pySlice line 54 57 = "YES"), decide (pySlice line 66 69 = "YES"),
     decide (pySlice line 77 80 = "YES")⟩, rfl, ?_, ?_, ?_, ?_⟩, by decide, by decide⟩
  · unfold stepFinAidS; simp
  · simp [decide_eq_true_iff]
  · simp [decide_eq_true_iff]
  · simp [decide_eq_true_iff]

/-- Counterexample to claim C10: in the concrete run C10lines an
award-bearing M/I line is followed by a NOT-GRANTING M/I line for the
same program; the claim predicts a key combining the later hegis with
the earlier award and institution, but no such key is emitted — the
sentinel line overwrote the override award with None, so the M/I branch
emits nothing and only the base-program key reaches the output. -/
theorem C10_overwrite_counterexample :
    finalLookup (runProgram C10lines) C10claimKey = none ∧
    emittedRecords (runProgram C10lines) =
      some [(C10baseKey, ⟨none, none, none, false, false, false, "NONE"⟩)] := by decide

/-- Claim C10 as amended: every M/I line overwrites both minst_hegis and
minst_award (the award becoming absent on a NOT-GRANTING line), while
minst_institution and the override flag are only set by the first
award-bearing line; consequently, after an award-bearing M/I line
followed by a sentinel M/I line the override award is absent, and the
M/I expansion branch emits no key at all on a later accreditation line,
rather than a key combining the two lines. -/
theorem C10_sentinel_overwrites_award (s : PState) (prev : LineType) (line : String)
    (hml : s.minst_line = some true) (hsent : miAward line = none) :
    (∃ s2, stepMI s prev line = StepOut.ok s2 ∧
      s2.minst_hegis = some (miHegis line) ∧ s2.minst_award = some none ∧
      s2.minst_institution = s.minst_institution ∧ s2.minst_line = some true ∧
      s2.records = s.records) ∧
    (∀ (t : PState) (A : String) (dr : Record) (rd : List (Key × Record) × List Diag),
      t.minst_line = some true → t.minst_award = some none →
      accredMIRD t A dr rd = Sum.inl rd) := by
  constructor
  · unfold stepMI
    rw [hsent]
    simp only [pyTruthy, Bool.false_eq_true, if_false]
    refine ⟨_, rfl, by simp, by simp [hsent], by simp, by simp [hml], by simp⟩
  · intro t A dr rd hml2 hma2
    unfold accredMIRD
    rw [hml2, hma2]
    simp

/-- Witness for C10 as amended: the bound state with the override flag
set, at a NOT-GRANTING M/I line. -/
theorem C10_sentinel_overwrites_award_witness :
    ({ boundState with minst_line := some true } : PState).minst_line = some true ∧
    miAward (miLineStr ("2222") ("NOT-GRANTING") ("")) = none ∧
    ((∃ s2, stepMI { boundState with minst_line := some true } LineType.multiple_institutions
        (miLineStr ("2222") ("NOT-GRANTING") ("")) = StepOut.ok s2 ∧
      s2.minst_hegis = some (miHegis (miLineStr ("2222") ("NOT-GRANTING") (""))) ∧
      s2.minst_award = some none ∧
      s2.minst_institution =
        ({ boundState with minst_line := some true } : PState).minst_institution ∧
      s2.minst_line = some true ∧
      s2.records = ({ boundState with minst_line := some true } : PState).records) ∧
    (∀ (t : PState) (A : String) (dr : Record) (rd : List (Key × Record) × List Diag),
      t.minst_line = some true → t.minst_award = some none →
      accredMIRD t A dr rd = Sum.inl rd)) :=
  ⟨rfl, by decide,
   C10_sentinel_overwrites_award { boundState with minst_line := some true }
     LineType.multiple_institutions (miLineStr ("2222") ("NOT-GRANTING") ("")) rfl (by decide)⟩

end ProgramCodes
